import Mathlib

/-!
Verification of the hazard-risk-checker repository's classification and
resolution logic.  The TypeScript route handlers are shallowly embedded:
pure classification functions are translated directly; the network layer
(fetch + JSON parsing) is abstracted into oracle parameters that supply the
values a handler would have extracted from a provider response, so each
handler body becomes a pure function of its inputs and those oracles.
JavaScript numbers are modelled by `JsNum` (NaN, plus and minus infinity, or
a rational), so that the NaN-comparison semantics of the source survive the
translation.
-/

namespace HazardCheck

/-- The closed risk taxonomy shared by all handlers
(`type Five = "Very Low" | ... | "Undetermined" | "Not Applicable"`). -/
inductive Five where
  | VeryLow
  | Low
  | Moderate
  | High
  | VeryHigh
  | Undetermined
  | NotApplicable
deriving DecidableEq, Fintype, Repr

/-- A JavaScript number: NaN, +Infinity, -Infinity, or a finite value
(modelled as a rational; the source's doubles only ever meet decimal
literals, so ordering facts agree). -/
inductive JsNum where
  | nan
  | inf
  | negInf
  | num (q : ℚ)
deriving DecidableEq, Repr

/-- `Number.isFinite`. -/
def JsNum.isFinite : JsNum → Bool
  | .num _ => true
  | _ => false

/-- JS `v <= c` for a finite constant `c` (false on NaN). -/
def JsNum.le (v : JsNum) (c : ℚ) : Bool :=
  match v with
  | .num q => decide (q ≤ c)
  | .negInf => true
  | _ => false

/-- JS `v < c` for a finite constant `c` (false on NaN). -/
def JsNum.lt (v : JsNum) (c : ℚ) : Bool :=
  match v with
  | .num q => decide (q < c)
  | .negInf => true
  | _ => false

/-- JS `v >= c` for a finite constant `c` (false on NaN). -/
def JsNum.ge (v : JsNum) (c : ℚ) : Bool :=
  match v with
  | .num q => decide (c ≤ q)
  | .inf => true
  | _ => false

/-- JS `v > c` for a finite constant `c` (false on NaN). -/
def JsNum.gt (v : JsNum) (c : ℚ) : Bool :=
  match v with
  | .num q => decide (c < q)
  | .inf => true
  | _ => false

/-- JS `v / c` for a positive finite constant `c` (NaN and infinities are
absorbing). -/
def JsNum.div (v : JsNum) (c : ℚ) : JsNum :=
  match v with
  | .num q => .num (q / c)
  | x => x

/-- JS `Math.round` on a finite value: half-up, i.e. `floor(q + 1/2)`. -/
def jsRoundQ (q : ℚ) : ℤ := ⌊q + 1/2⌋

/-- `Math.round` lifted to JS numbers (NaN and infinities pass through,
as in JS). -/
def JsNum.round : JsNum → JsNum
  | .num q => .num ((jsRoundQ q : ℤ) : ℚ)
  | x => x

/-- A JSON attribute value as the handlers see it: null, a string, or a
number. -/
inductive JsVal where
  | null
  | str (s : String)
  | jnum (v : JsNum)
deriving DecidableEq, Repr

/-! ## String helpers shared by the label normalizers -/

/-- `String.prototype.toLowerCase` (ASCII, which covers every label the
services emit). -/
def jsLower (s : String) : String := String.mk (s.data.map Char.toLower)

/-- `String.prototype.toUpperCase`. -/
def jsUpper (s : String) : String := String.mk (s.data.map Char.toUpper)

/-- Characters removed by the `replace(/[\s_\-()/]+/g, "")` normalization
used by the NRI label mappers. -/
def strippedChar (c : Char) : Bool :=
  c = ' ' || c = '\t' || c = '\n' || c = '\r' ||
  c = '_' || c = '-' || c = '(' || c = ')' || c = '/'

/-- `s.toLowerCase().replace(/[\s_\-()/]+/g, "")`. -/
def normKey (s : String) : String :=
  String.mk ((jsLower s).data.filter (fun c => !strippedChar c))

/-- Contiguous-sublist test on character lists. -/
def listInfix (pat : List Char) : List Char → Bool
  | [] => pat.isEmpty
  | c :: rest => pat.isPrefixOf (c :: rest) || listInfix pat rest

/-- `a.includes(b)` — substring containment. -/
def hasSub (s pat : String) : Bool := listInfix pat.data s.data

/-- Whitespace for `String.prototype.trim`. -/
def isWsChar (c : Char) : Bool := c = ' ' || c = '\t' || c = '\n' || c = '\r'

/-- `s.trim()`: strip leading and trailing whitespace. -/
def jsTrim (s : String) : String :=
  String.mk (((s.data.dropWhile isWsChar).reverse.dropWhile isWsChar).reverse)

/-! ## Tornado route label mapper (`src/app/api/tornado/risk/route.ts`,
`mapLabelToLevel`, identical in both revisions of the file) -/

/-- `mapLabelToLevel(raw)`: null → Undetermined, otherwise lowercase and
strip `[\s_\-()/]`, then test sentinel phrases before the severity
phrases.  A numeric value is stringified by the source (`String(raw)`);
since a numeral contains none of the matched phrases it always falls
through to the final Undetermined, which the model returns directly. -/
def mapLabelToLevel (raw : JsVal) : Five :=
  match raw with
  | .null => .Undetermined
  | .jnum _ => .Undetermined
  | .str s0 =>
    let s := normKey s0
    if hasSub s "notapplicable" then .NotApplicable
    else if hasSub s "insufficientdata" then .Undetermined
    else if hasSub s "norating" then .NotApplicable
    else if hasSub s "veryhigh" then .VeryHigh
    else if hasSub s "relativelyhigh" || s = "high" then .High
    else if hasSub s "relativelymoderate" || s = "moderate" then .Moderate
    else if hasSub s "relativelylow" || s = "low" then .Low
    else if hasSub s "verylow" then .VeryLow
    else .Undetermined

/-- `mapScoreToLevel(scoreRaw)` (tornado, `?mode=score`): null →
Undetermined, non-finite → Undetermined, multiply by 100 when ≤ 1.5, then
thresholds ≤0 / >99 / >93 / >85 / >71. -/
def mapScoreToLevel (scoreRaw : Option JsNum) : Five :=
  match scoreRaw with
  | none => .Undetermined
  | some v =>
    match v with
    | .num q =>
      let s := if q ≤ 1.5 then q * 100 else q
      if s ≤ 0 then .NotApplicable
      else if 99 < s then .VeryHigh
      else if 93 < s then .High
      else if 85 < s then .Moderate
      else if 71 < s then .Low
      else .VeryLow
    | _ => .Undetermined

/-! ## Landslide LANDSLIDE_URL route label mappers
(`src/app/api/landslide/risk/route.ts`, first revision) -/

/-- `toLevelFromLabel(label)`: lowercase, then substring checks with
"very high" before "high" and "very low" before "low". -/
def toLevelFromLabel (label : String) : Five :=
  let s := jsLower label
  if hasSub s "very high" then .VeryHigh
  else if s = "vh" then .VeryHigh
  else if hasSub s "high" then .High
  else if hasSub s "moderate" then .Moderate
  else if hasSub s "very low" then .VeryLow
  else if s = "vl" then .VeryLow
  else if hasSub s "low" then .Low
  else if hasSub s "no data" || hasSub s "undetermined" || hasSub s "unknown" then .Undetermined
  else .Undetermined

/-! ## Landslide NRI route loose mapper
(`src/app/api/landslide/risk/route.ts`, second revision, `mapLabelLoose`) -/

/-- The `{1: "Very Low", ..., 5: "Very High"}` lookup used by
`mapLabelLoose` for numeric codes; a non-integer or out-of-range key (and
a non-finite number) misses the map. -/
def classMap15 : JsNum → Option Five
  | .num q =>
    if q = 1 then some .VeryLow
    else if q = 2 then some .Low
    else if q = 3 then some .Moderate
    else if q = 4 then some .High
    else if q = 5 then some .VeryHigh
    else none
  | _ => none

/-- `mapLabelLoose(raw).level`: null → Undetermined; a number in `[1,5]`
is rounded and looked up as a class code; any other number is divided by
100 when > 1.5 and pushed through the 0.2/0.4/0.6/0.8 thresholds; a
string is normalized and matched, sentinels and short codes first. -/
def mapLabelLoose (raw : JsVal) : Five :=
  match raw with
  | .null => .Undetermined
  | .jnum v =>
    if v.ge 1 && v.le 5 then (classMap15 v.round).getD .Undetermined
    else
      let x := if v.gt 1.5 then v.div 100 else v
      if x.le 0.2 then .VeryLow
      else if x.le 0.4 then .Low
      else if x.le 0.6 then .Moderate
      else if x.le 0.8 then .High
      else .VeryHigh
  | .str s0 =>
    let n := normKey s0
    if hasSub n "norating" || hasSub n "insufficient" || hasSub n "notapplicable" then .Undetermined
    else if n = "vh" then .VeryHigh
    else if n = "h" then .High
    else if n = "m" then .Moderate
    else if n = "l" then .Low
    else if n = "vl" then .VeryLow
    else if hasSub n "veryhigh" then .VeryHigh
    else if hasSub n "relativelyhigh" then .High
    else if hasSub n "high" then .High
    else if hasSub n "relativelymoderate" then .Moderate
    else if hasSub n "moderate" then .Moderate
    else if hasSub n "verylow" then .VeryLow
    else if hasSub n "relativelylow" then .Low
    else if hasSub n "low" then .Low
    else .Undetermined

/-! ## Attribute bags and the schema field locator (tornado route) -/

/-- A provider attribute bag, in provider key order. -/
abbrev Attrs := List (String × JsVal)

/-- `s.endsWith(pat)` over characters. -/
def endsW (s pat : String) : Bool := pat.data.isSuffixOf s.data

/-- `s.startsWith(pat)` over characters. -/
def startsW (s pat : String) : Bool := pat.data.isPrefixOf s.data

/-- `findAttr(attrs, patterns)`: the first entry whose uppercased key
satisfies the combined pattern predicate. -/
def findAttr (attrs : Attrs) (p : String → Bool) : Option (String × JsVal) :=
  attrs.find? (fun kv => p (jsUpper kv.1))

/-- The two label-field regexes of the first tornado revision,
`/(^|_)TRND_RISKR$/i` and `/(^|_)TRND.*_RISKR$/i`, on an uppercased key. -/
def matchTrndRiskR (up : String) : Bool :=
  up = "TRND_RISKR" || endsW up "_TRND_RISKR" ||
  ((startsW up "TRND" || hasSub up "_TRND") && endsW up "_RISKR")

/-- The score-field regex `/(^|_)TRND_RISKS$/i`. -/
def matchTrndRiskS (up : String) : Bool :=
  up = "TRND_RISKS" || endsW up "_TRND_RISKS"

/-- The guarded fuzzy score fallback: contains TRND, ends with RISKS, and
excludes the auxiliary-statistic fields (RISKR / RANK / PCTL / INDEX). -/
def trndScoreFallback (up : String) : Bool :=
  hasSub up "TRND" && endsW up "RISKS" && !hasSub up "RISKR" &&
  !hasSub up "RANK" && !hasSub up "PCTL" && !hasSub up "INDEX"

/-- Result of `extract` (first tornado revision): located label value and
the score normalized to 0–100 (`value*100` when ≤ 1.5). -/
structure Extracted where
  label : JsVal
  score : Option JsNum
deriving DecidableEq, Repr

/-- `extract(attrs)`: strict TRND_RISKR / TRND_RISKS field location with
the fuzzy score fallback; a found-but-null label stays null
(`rate?.value == null ? null : String(rate.value)`). -/
def extract (attrs : Attrs) : Extracted :=
  let rate := findAttr attrs matchTrndRiskR
  let score0 := findAttr attrs matchTrndRiskS
  let score := match score0 with
    | some kv => some kv
    | none => attrs.find? (fun kv => trndScoreFallback (jsUpper kv.1))
  let score100 : Option JsNum := match score with
    | some kv =>
      match kv.2 with
      | JsVal.jnum (JsNum.num q) => some (JsNum.num (if q ≤ 1.5 then q * 100 else q))
      | _ => none
    | none => none
  let lbl := match rate with
    | none => JsVal.null
    | some kv => kv.2
  ⟨lbl, score100⟩

/-- The label-field regex `/(?:^|_)TORN(?:ADO)?_RISKR$/i` of the second
tornado revision. -/
def matchTornRiskR (up : String) : Bool :=
  up = "TORN_RISKR" || up = "TORNADO_RISKR" ||
  endsW up "_TORN_RISKR" || endsW up "_TORNADO_RISKR"

/-- The score-field regex `/(?:^|_)TORN(?:ADO)?_RISKS$/i`. -/
def matchTornRiskS (up : String) : Bool :=
  up = "TORN_RISKS" || up = "TORNADO_RISKS" ||
  endsW up "_TORN_RISKS" || endsW up "_TORNADO_RISKS"

/-- Fuzzy score fallback of the second tornado revision. -/
def tornScoreFallback (up : String) : Bool :=
  (hasSub up "TORN" || hasSub up "TORNADO") && endsW up "RISKS" &&
  !hasSub up "RISKR" && !hasSub up "RANK" && !hasSub up "PCTL" && !hasSub up "INDEX"

/-- Result of `extractTornado`. -/
structure TornadoExt where
  level : Five
  label : JsVal
  score : Option ℚ
deriving DecidableEq, Repr

/-- `extractTornado(attrs)` (second tornado revision): label via
TORN(ADO)_RISKR, raw score via TORN(ADO)_RISKS, and — when the label maps
to Undetermined or Not Applicable and a numeric score exists — a level
derived from the raw score at thresholds 80/60/40/20. -/
def extractTornado (attrs : Attrs) : TornadoExt :=
  let riskR := findAttr attrs matchTornRiskR
  let riskS0 := findAttr attrs matchTornRiskS
  let riskS := match riskS0 with
    | some kv => some kv
    | none => attrs.find? (fun kv => tornScoreFallback (jsUpper kv.1))
  let score : Option ℚ := match riskS with
    | some kv =>
      match kv.2 with
      | JsVal.jnum (JsNum.num q) => some q
      | _ => none
    | none => none
  let lbl := match riskR with
    | none => JsVal.null
    | some kv => kv.2
  let lv0 := mapLabelToLevel lbl
  let lv :=
    if lv0 = Five.Undetermined ∨ lv0 = Five.NotApplicable then
      match score with
      | some q =>
        if 80 ≤ q then Five.VeryHigh
        else if 60 ≤ q then Five.High
        else if 40 ≤ q then Five.Moderate
        else if 20 ≤ q then Five.Low
        else Five.VeryLow
      | none => lv0
    else lv0
  ⟨lv, lbl, score⟩

/-! ## Tornado GET orchestration -/

/-- Observable outcome of a route handler: an HTTP error status, or a
success body carrying the level and the reported admin unit. -/
inductive RouteOut where
  | err (status : ℕ)
  | body (level : Five) (adminUnit : Option String)
deriving DecidableEq, Repr

/-- GET of the first tornado revision, abstracted over the network: the
two `pickFeature` outcomes (tract layer, county layer) are supplied as
optional attribute bags, `none` meaning no feature was found after all
escalation steps.  The `address` geocode branch is outside the modelled
flow (lat/lon supplied directly, already `Number(...)`-converted). -/
def tornadoGET (latNum lonNum : JsNum) (mode : String) (tractOnly : Bool)
    (tractPick countyPick : Option Attrs) : RouteOut :=
  if !(latNum.isFinite && lonNum.isFinite) then .err 400
  else
    match tractPick with
    | some attrs =>
      let ext := extract attrs
      .body (if mode = "score" then mapScoreToLevel ext.score else mapLabelToLevel ext.label)
        (some "tract")
    | none =>
      if !tractOnly then
        match countyPick with
        | some attrs =>
          let ext := extract attrs
          .body (if mode = "score" then mapScoreToLevel ext.score else mapLabelToLevel ext.label)
            (some "county")
        | none => .body .Undetermined (if tractOnly then some "tract" else none)
      else .body .Undetermined (if tractOnly then some "tract" else none)

/-- GET of the second tornado revision (no mode/tractOnly options; level
comes from `extractTornado` with its score fallback), same network
abstraction as `tornadoGET`. -/
def tornadoGET2 (latNum lonNum : JsNum) (tractPick countyPick : Option Attrs) : RouteOut :=
  if !(latNum.isFinite && lonNum.isFinite) then .err 400
  else
    match tractPick with
    | some attrs => .body (extractTornado attrs).level (some "tract")
    | none =>
      match countyPick with
      | some attrs => .body (extractTornado attrs).level (some "county")
      | none => .body .Undetermined none

/-! ## Landslide NRI route (part_004, NRI-backed revision) -/

/-- Attribute bag of the NRI landslide handler; the rating fields it
reads hold strings, so values are modelled as strings. -/
abbrev NriAttrs := List (String × String)

/-- Exact-key property access on an attribute bag. -/
def lookupAttr (attrs : NriAttrs) (k : String) : Option String :=
  (attrs.find? (fun kv => kv.1 == k)).map (fun kv => kv.2)

/-- `readNriLandslide(attrs)`: the `??` chain over the four known rating
keys. -/
def readNriLandslide (attrs : NriAttrs) : Option String :=
  match lookupAttr attrs "LNDS_RISKR" with
  | some v => some v
  | none =>
    match lookupAttr attrs "lnds_riskr" with
    | some v => some v
    | none =>
      match lookupAttr attrs "Landslide - Individual Hazard Risk Rating" with
      | some v => some v
      | none => lookupAttr attrs "LANDSLIDE - INDIVIDUAL HAZARD RISK RATING"

/-- `mapToFive(raw)`: trim + lowercase, empty/null → Undetermined with
label "No Rating", then the "very …"/"relatively …" phrases (this mapper
has no bare "high"/"low" rules), then the sentinel phrases. -/
def mapToFive (raw : Option String) : Five × String :=
  let s := jsTrim (jsLower (raw.getD ""))
  if s = "" then (.Undetermined, "No Rating")
  else if hasSub s "very high" then (.VeryHigh, "Very High")
  else if hasSub s "relatively high" then (.High, "Relatively High")
  else if hasSub s "relatively moderate" then (.Moderate, "Relatively Moderate")
  else if hasSub s "relatively low" then (.Low, "Relatively Low")
  else if hasSub s "very low" then (.VeryLow, "Very Low")
  else if hasSub s "no rating" || hasSub s "insufficient" || hasSub s "not applicable" then
    (.Undetermined, raw.getD "")
  else (.Undetermined, raw.getD "")

/-- Outcome of `queryAtPoint`: HTTP ok flag plus the first feature's
attribute bag (`none` when no feature intersected the point). -/
structure QOut where
  ok : Bool
  attrs : Option NriAttrs
deriving DecidableEq, Repr

/-- County and terminal stage of the NRI landslide GET (part_004): a
county feature is returned whatever level it maps to; with no county
feature either, debug mode surfaces a 502 while production returns a
success body with level Undetermined. -/
def landslideNriCounty (debug : Bool) (c : QOut) : RouteOut :=
  match c.ok, c.attrs with
  | true, some a => RouteOut.body (mapToFive (readNriLandslide a)).1 (some "county")
  | _, _ =>
    if debug then RouteOut.err 502
    else RouteOut.body Five.Undetermined none

/-- GET of the NRI landslide handler (part_004): tract first; a tract
feature whose rating maps to a non-Undetermined level is returned
directly, anything else falls through to the county stage. -/
def landslideNriGET (latNum lonNum : JsNum) (debug : Bool) (t c : QOut) : RouteOut :=
  if !(latNum.isFinite && lonNum.isFinite) then RouteOut.err 400
  else
    match t.ok, t.attrs with
    | true, some a =>
      let m := mapToFive (readNriLandslide a)
      if m.1 ≠ Five.Undetermined then RouteOut.body m.1 (some "tract")
      else landslideNriCounty debug c
    | _, _ => landslideNriCounty debug c

/-! ## Landslide LANDSLIDE_URL routes (first revision of
`src/app/api/landslide/risk/route.ts`, and part_005) -/

/-- Outcome of one candidate-service attempt in the LANDSLIDE_URL
handlers, as the loop sees it after the fetch layer: a usable level
(`res.ok`), a query that found no feature, or any other failure. -/
inductive AttemptR where
  | success (level : Five)
  | noFeature
  | otherFail
deriving DecidableEq, Repr

/-- Route outcome of the LANDSLIDE_URL handlers (no admin unit in their
bodies). -/
inductive UrlOut where
  | err (status : ℕ)
  | ok (level : Five)
deriving DecidableEq, Repr

/-- First success of the candidate loop, in candidate order. -/
def firstSuccess (results : List AttemptR) : Option Five :=
  results.findSome? (fun r =>
    match r with
    | AttemptR.success lv => some lv
    | _ => none)

/-- GET of the first-revision LANDSLIDE_URL handler: 400 on non-finite
coordinates, 500 when LANDSLIDE_URL is unset, first successful candidate
wins, and exhaustion returns HTTP 502 (regardless of debug, which only
changes the error body). -/
def landslideUrlGET (latNum lonNum : JsNum) (envUrl : Option String)
    (results : List AttemptR) : UrlOut :=
  if !(latNum.isFinite && lonNum.isFinite) then UrlOut.err 400
  else
    match envUrl with
    | none => UrlOut.err 500
    | some _ =>
      match firstSuccess results with
      | some lv => UrlOut.ok lv
      | none => UrlOut.err 502

/-- GET of the part_005 LANDSLIDE_URL handler: same shape, but on
exhaustion a 404 is returned when some attempt reported "no feature",
and 502 otherwise. -/
def ls5GET (latNum lonNum : JsNum) (envUrl : Option String)
    (results : List AttemptR) : UrlOut :=
  if !(latNum.isFinite && lonNum.isFinite) then UrlOut.err 400
  else
    match envUrl with
    | none => UrlOut.err 500
    | some _ =>
      match firstSuccess results with
      | some lv => UrlOut.ok lv
      | none =>
        if results.any (fun r => r == AttemptR.noFeature) then UrlOut.err 404
        else UrlOut.err 502

/-! ## Wildfire route: numeric classifiers
(`src/app/api/wildfire/homes/route.ts`) -/

/-- `levelFromRps`: RPS ~0–1020 → level; null / non-finite → Not
Applicable. -/
def levelFromRps (v : Option JsNum) : Five :=
  match v with
  | none => .NotApplicable
  | some w =>
    match w with
    | .num q =>
      if q < 160 then .VeryLow
      else if q < 350 then .Low
      else if q < 600 then .Moderate
      else if q < 850 then .High
      else .VeryHigh
    | _ => .NotApplicable

/-- `levelFromClassCode`: class codes 1..5 → level; `Math.round` first,
then `n <= 0` → Not Applicable, `5+` → Very High. -/
def levelFromClassCode (v : Option JsNum) : Five :=
  match v with
  | none => .NotApplicable
  | some w =>
    match w with
    | .num q =>
      let n := jsRoundQ q
      if n ≤ 0 then .NotApplicable
      else if n = 1 then .VeryLow
      else if n = 2 then .Low
      else if n = 3 then .Moderate
      else if n = 4 then .High
      else .VeryHigh
    | _ => .NotApplicable

/-- `byteToClass`: `Math.min(Math.max(1 + Math.floor(v * 5 / 256), 1), 5)`.
Call sites guard the argument to be a finite number, so the model takes a
rational. -/
def byteToClass (vByte : ℚ) : ℤ :=
  min (max (1 + ⌊vByte * 5 / 256⌋) 1) 5

/-- `LEVEL_SCORE`: severity order used to pick the more severe reading;
both sentinels score 0. -/
def LEVEL_SCORE : Five → ℕ
  | .NotApplicable => 0
  | .Undetermined => 0
  | .VeryLow => 1
  | .Low => 2
  | .Moderate => 3
  | .High => 4
  | .VeryHigh => 5

/-- `higher(a, b) = LEVEL_SCORE[a] >= LEVEL_SCORE[b] ? a : b`. -/
def higher (a b : Five) : Five :=
  if LEVEL_SCORE b ≤ LEVEL_SCORE a then a else b

/-- Outcome of one variant attempt in the first-revision `tryVariants`
loop (`valueType` class / rps / nothing usable). -/
inductive TV where
  | classV (v : ℚ)
  | rpsV (v : ℚ)
  | nothing
deriving DecidableEq, Repr

/-- The integer-class test of the wildfire samplers:
`Math.abs(num - Math.round(num)) < 1e-6 && num >= 1 && num <= 5`. -/
def intClass (q : ℚ) : Bool :=
  decide (|q - ((jsRoundQ q : ℤ) : ℚ)| < 1 / 1000000 ∧ 1 ≤ q ∧ q ≤ 5)

/-- The usual no-data markers of the wildfire samplers: exactly zero,
the sentinel -9999, or magnitude above 1e20 (non-finite numbers are
rejected separately by the `Number.isFinite` test). -/
def isNoData (q : ℚ) : Bool :=
  decide (q = 0 ∨ q = -9999 ∨ (10 : ℚ) ^ 20 < |q|)

/-- The three-branch continuous normalization to ~0–1020 used by the
first-revision `tryVariants` and by the `RPS_Class` fallback of
`getVariantValue`: ≤1.5 → ×1020, (0,100] → ×10.2, (1020,2000] →
/2000×1020, else unchanged. -/
def rpsNorm3 (q : ℚ) : ℚ :=
  if q ≤ 1.5 then q * 1020
  else if 0 < q ∧ q ≤ 100 then q * 10.2
  else if 1020 < q ∧ q ≤ 2000 then (q / 2000) * 1020
  else q

/-- The continuous normalization of the multi-source `getVariantValue`
RPS path, which adds a fourth branch treating (0,255] as a palette
byte. -/
def rpsNorm4 (q : ℚ) : ℚ :=
  if q ≤ 1.5 then q * 1020
  else if 0 < q ∧ q ≤ 100 then q * 10.2
  else if 1020 < q ∧ q ≤ 2000 then (q / 2000) * 1020
  else if 0 < q ∧ q ≤ 255 then (q / 255) * 1020
  else q

/-- Sample value type of the wildfire samplers. -/
inductive VType where
  | cls
  | rps
  | unknown
deriving DecidableEq, Repr

/-- Result of `getVariantValue`. -/
structure GV where
  ok : Bool
  value : Option ℚ
  type : VType
deriving DecidableEq, Repr

/-- Post-fetch logic of `getVariantValue` (multi-source wildfire
revision).  The network layer — fetch, JSON extraction, the string
cleanup and the `Number(...)` conversion — is abstracted into the HTTP
`ok` flag and the JS number it produced. -/
def getVariantValue (label : String) (ok : Bool) (num : JsNum) : GV :=
  if ok = false then ⟨false, none, VType.unknown⟩
  else
    match num with
    | JsNum.num q =>
      if isNoData q then ⟨true, none, VType.unknown⟩
      else if label = "RPS_Class" then
        if intClass q then ⟨true, some q, VType.cls⟩
        else if 0 ≤ q ∧ q ≤ 255 then ⟨true, some ((byteToClass q : ℤ) : ℚ), VType.cls⟩
        else ⟨true, some (rpsNorm3 q), VType.rps⟩
      else ⟨true, some (rpsNorm4 q), VType.rps⟩
    | _ => ⟨true, none, VType.unknown⟩

/-- Result of `readBothAndChoose`. -/
structure RB where
  level : Five
  value : Option ℚ
  hasAny : Bool
deriving DecidableEq, Repr

/-- `readBothAndChoose`: read the continuous RPS variant and the
RPS_Class variant at the same point and keep the more severe of the two
normalized levels (the continuous reading is installed first, so it wins
ties). -/
def readBothAndChoose (rpsOk : Bool) (rpsNum : JsNum) (clsOk : Bool) (clsNum : JsNum) : RB :=
  let rps := getVariantValue "RPS" rpsOk rpsNum
  let cls := getVariantValue "RPS_Class" clsOk clsNum
  let best0 : Five × Option ℚ :=
    match rps.ok, rps.value with
    | true, some v => (levelFromRps (some (JsNum.num v)), some v)
    | _, _ => (Five.NotApplicable, none)
  let best :=
    match cls.ok, cls.value with
    | true, some v =>
      let lv := if cls.type = VType.cls then levelFromClassCode (some (JsNum.num v))
                else levelFromRps (some (JsNum.num v))
      if LEVEL_SCORE best0.1 < LEVEL_SCORE lv then (lv, some v) else best0
    | _, _ => best0
  ⟨best.1, best.2, (rps.ok && rps.value.isSome) || (cls.ok && cls.value.isSome)⟩

/-- First-revision `tryVariants`: the sample value produced by one
(rendering rule, band) attempt, `none` when the loop would continue to
the next variant. -/
def variantOutcome (label : String) (ok : Bool) (num : JsNum) : Option TV :=
  if ok = false then none
  else
    match num with
    | JsNum.num q =>
      if isNoData q then none
      else if intClass q then some (TV.classV q)
      else if hasSub (jsLower label) "class" ∧ 0 ≤ q ∧ q ≤ 255 then
        some (TV.classV ((byteToClass q : ℤ) : ℚ))
      else some (TV.rpsV (rpsNorm3 q))
    | _ => none

/-- Fast-mode rule list of the first-revision `tryVariants` (the default
`WFR_MODE`): RPS before RPS_Class, each with the single default band;
deep mode appends more rule/band combinations after these two. -/
def RULES_fast : List String := ["RPS", "RPS_Class"]

/-- First-revision `tryVariants` in fast mode, abstracted over the
sampling network: `oracle lbl` is the (HTTP ok, numeric sample) pair for
rendering rule `lbl`; the first usable variant in rule order wins. -/
def tryVariantsFast (oracle : String → Bool × JsNum) : TV :=
  match RULES_fast.findSome? (fun lbl => variantOutcome lbl (oracle lbl).1 (oracle lbl).2) with
  | some r => r
  | none => TV.nothing

/-- A concrete sampling point at which both wildfire readings are
obtainable: the continuous RPS sample is 400 and the RPS_Class sample is
the class code 4. -/
def oracleC5 : String → Bool × JsNum :=
  fun lbl => if lbl = "RPS" then (true, JsNum.num 400) else (true, JsNum.num 4)

/-! ## Tile-palette landslide classifier (part_003) -/

/-- The five-valued level union of the tile-palette landslide route —
this route's type has no sentinel members at all. -/
inductive L5 where
  | very_low
  | low
  | moderate
  | high
  | very_high
deriving DecidableEq, Fintype, Repr

/-- Injection of the tile route's levels into the shared taxonomy. -/
def L5.toFive : L5 → Five
  | .very_low => Five.VeryLow
  | .low => Five.Low
  | .moderate => Five.Moderate
  | .high => Five.High
  | .very_high => Five.VeryHigh

/-- `mapLabelToLevel(label)` of part_003: lowercase substring matching
with a default of very low for anything unmatched. -/
def mapLabelToLevelTiles (label : String) : L5 :=
  let l := jsLower label
  if hasSub l "very high" then L5.very_high
  else if hasSub l "high" then L5.high
  else if hasSub l "moderate" then L5.moderate
  else if hasSub l "very low" then L5.very_low
  else if hasSub l "low" then L5.low
  else L5.very_low

/-- One tile pixel (byte channels, here unbounded naturals since only
comparisons and sums are performed). -/
structure RGBA where
  r : ℕ
  g : ℕ
  b : ℕ
  a : ℕ
deriving DecidableEq, Repr

/-- One step of the 5x5 neighborhood accumulation: pixels with zero
alpha are skipped. -/
def sumStep (acc : (ℕ × ℕ × ℕ × ℕ) × ℕ) (p : RGBA) : (ℕ × ℕ × ℕ × ℕ) × ℕ :=
  if 0 < p.a then
    ((acc.1.1 + p.r, acc.1.2.1 + p.g, acc.1.2.2.1 + p.b, acc.1.2.2.2 + p.a), acc.2 + 1)
  else acc

/-- Average RGBA of the sampled neighborhood (`sum/n | 0`, truncating
division); an all-transparent neighborhood averages to `(0,0,0,0)`. -/
def avgOf (pixels : List RGBA) : ℕ × ℕ × ℕ × ℕ :=
  let s := pixels.foldl sumStep ((0, 0, 0, 0), 0)
  if s.2 = 0 then (0, 0, 0, 0)
  else (s.1.1 / s.2, s.1.2.1 / s.2, s.1.2.2.1 / s.2, s.1.2.2.2 / s.2)

/-- `dist2`: squared RGB distance. -/
def dist2 (x y : ℤ × ℤ × ℤ) : ℤ :=
  (x.1 - y.1) * (x.1 - y.1) + (x.2.1 - y.2.1) * (x.2.1 - y.2.1) +
    (x.2.2 - y.2.2) * (x.2.2 - y.2.2)

/-- A legend palette entry: lowercased label key and representative RGB
(the alpha of the swatch plays no role in the distance). -/
abbrev PaletteEntry := String × (ℤ × ℤ × ℤ)

/-- One step of the nearest-swatch loop: strict improvement only, so the
first of equally-near swatches is kept. -/
def bestStep (avg : ℤ × ℤ × ℤ) (acc : Option (ℕ × ℤ)) (ie : ℕ × PaletteEntry) :
    Option (ℕ × ℤ) :=
  let d := dist2 avg ie.2.2
  match acc with
  | none => some (ie.1, d)
  | some best => if d < best.2 then some (ie.1, d) else some best

/-- Index of the palette swatch nearest to the average color; `none` for
an empty palette (the source loop then leaves `best.i = -1`). -/
def bestIdx (avg : ℤ × ℤ × ℤ) (palette : List PaletteEntry) : Option ℕ :=
  (palette.enum.foldl (bestStep avg) none).map (fun best => best.1)

/-- The pixel-classification core of the part_003 GET: average the 5x5
neighborhood; a fully transparent average means "outside mapped
polygons" and classifies as very low; otherwise the nearest legend
swatch's key (`palette[best.i]?.key ?? "very low"`) is mapped through
the label classifier. -/
def classifyTile (palette : List PaletteEntry) (pixels : List RGBA) : L5 :=
  let avg := avgOf pixels
  if avg.2.2.2 ≤ 0 then L5.very_low
  else
    let bestLabel :=
      match bestIdx ((avg.1 : ℤ), (avg.2.1 : ℤ), (avg.2.2.1 : ℤ)) palette with
      | some i => ((palette.get? i).map (fun pe => pe.1)).getD "very low"
      | none => "very low"
    mapLabelToLevelTiles bestLabel

/-- A level is a sentinel when it is Undetermined or Not Applicable
(the two values outside the five-step severity order). -/
def isSentinel : Five → Bool
  | .Undetermined => true
  | .NotApplicable => true
  | _ => false

/-- Modelled from the spec, for comparison only (rule 5 of §4.2): with a
ZeroToOne or ZeroToHundred scale, "normalize to 0–100 (`value*100` if
≤1.5) then threshold at 20/40/60/80 into VeryLow…VeryHigh". -/
def specScore2040 (v : ℚ) : Five :=
  let s := if v ≤ 1.5 then v * 100 else v
  if s ≤ 20 then .VeryLow
  else if s ≤ 40 then .Low
  else if s ≤ 60 then .Moderate
  else if s ≤ 80 then .High
  else .VeryHigh

end HazardCheck

namespace HazardCheck

/-! ## Claim C1 — what unclassifiable indicators map to -/

/-- C1 counterexample: a NaN numeric indicator — which fails every
classification rule — is mapped by `mapLabelLoose` to Very High, a
risk-bearing level, not to Undetermined: NaN fails the `[1,5]` guard and
every `<=` threshold, so the chain's final else returns Very High. -/
theorem C1_counterexample :
    mapLabelLoose (JsVal.jnum JsNum.nan) = Five.VeryHigh ∧
    Five.VeryHigh ≠ Five.Undetermined := by
  constructor
  · simp [mapLabelLoose, JsNum.ge, JsNum.le, JsNum.gt, JsNum.div]
  · decide

/-- Numeric input can never make `mapLabelLoose` return Undetermined: a
value in `[1,5]` rounds to a class code that hits the 1..5 lookup, every
other finite value lands in one of the five threshold branches, and NaN
and the infinities fall through the comparisons into Very High (or Very
Low for -Infinity). -/
theorem mapLabelLoose_num_ne_und (v : JsNum) :
    mapLabelLoose (JsVal.jnum v) ≠ Five.Undetermined := by
  cases v with
  | nan => simp [mapLabelLoose, JsNum.ge, JsNum.le, JsNum.gt, JsNum.div]
  | inf => simp [mapLabelLoose, JsNum.ge, JsNum.le, JsNum.gt, JsNum.div]
  | negInf => simp [mapLabelLoose, JsNum.ge, JsNum.le, JsNum.gt, JsNum.div]
  | num q =>
    simp only [mapLabelLoose, JsNum.ge, JsNum.le, JsNum.gt, JsNum.div, JsNum.round, jsRoundQ]
    by_cases h : 1 ≤ q ∧ q ≤ 5
    · rw [if_pos (by simp [h.1, h.2])]
      have h1 : (1 : ℤ) ≤ ⌊q + 1/2⌋ := by
        apply Int.le_floor.mpr
        push_cast
        linarith [h.1]
      have h5 : ⌊q + 1/2⌋ ≤ 5 := by
        have h6 : ⌊q + 1/2⌋ < 6 := Int.floor_lt.mpr (by push_cast; linarith [h.2])
        omega
      set r := ⌊q + 1/2⌋ with hr
      interval_cases r <;> norm_num [classMap15] <;> decide
    · have hb : (decide (1 ≤ q) && decide (q ≤ 5)) = false := by
        rcases not_and_or.mp h with h' | h' <;> simp [h']
      rw [hb]
      simp only [Bool.false_eq_true, if_false]
      split_ifs <;> simp

/-- C1 amended: a null indicator degrades to Undetermined in
`mapLabelLoose`, but a NaN number classifies as Very High and no numeric
input whatsoever can produce Undetermined (out-of-range numbers are
classified through the thresholds into risk-bearing levels); the wildfire
`levelFromRps` sends null and NaN to Not Applicable, not Undetermined.
No path throws: both functions are total by construction. -/
theorem C1_amended :
    mapLabelLoose JsVal.null = Five.Undetermined ∧
    mapLabelLoose (JsVal.jnum JsNum.nan) = Five.VeryHigh ∧
    (∀ v : JsNum, mapLabelLoose (JsVal.jnum v) ≠ Five.Undetermined) ∧
    levelFromRps none = Five.NotApplicable ∧
    levelFromRps (some JsNum.nan) = Five.NotApplicable := by
  refine ⟨rfl, ?_, mapLabelLoose_num_ne_und, rfl, rfl⟩
  simp [mapLabelLoose, JsNum.ge, JsNum.le, JsNum.gt, JsNum.div]

/-! ## Claim C2 — fallback-chain ordering -/

/-- C2 counterexample: in the tornado handler a tract feature whose
rating maps to Undetermined is returned directly — the county source,
which here would map to High, is never consulted.  (The tract pick and
county pick are the abstracted network results.) -/
theorem C2_counterexample :
    tornadoGET (JsNum.num 35) (JsNum.num (-97)) "label" false
      (some [("TRND_RISKR", JsVal.str "Insufficient Data")])
      (some [("TRND_RISKR", JsVal.str "Relatively High")])
      = RouteOut.body Five.Undetermined (some "tract") ∧
    mapLabelToLevel (JsVal.str "Relatively High") = Five.High := by decide

/-- C2 amended: the NRI landslide handler (part_004) implements the
claimed chain — a tract feature mapping to Undetermined falls through to
the county stage, a tract feature mapping to an ordered level is
returned regardless of what the county would say, and a county feature
is returned whatever its level; the tornado handler instead stops at the
first source that yields a feature at all, returning that feature's
level even when it is Undetermined, so its county source is consulted
only when the tract query found no feature. -/
theorem C2_amended :
    (∀ (a : NriAttrs) (c : QOut) (dbg : Bool),
      (mapToFive (readNriLandslide a)).1 = Five.Undetermined →
      landslideNriGET (JsNum.num 35) (JsNum.num (-97)) dbg ⟨true, some a⟩ c
        = landslideNriCounty dbg c) ∧
    (∀ (a : NriAttrs) (dbg : Bool) (c : QOut),
      (mapToFive (readNriLandslide a)).1 ≠ Five.Undetermined →
      landslideNriGET (JsNum.num 35) (JsNum.num (-97)) dbg ⟨true, some a⟩ c
        = RouteOut.body (mapToFive (readNriLandslide a)).1 (some "tract")) ∧
    (∀ (ca : NriAttrs) (dbg : Bool),
      landslideNriCounty dbg ⟨true, some ca⟩
        = RouteOut.body (mapToFive (readNriLandslide ca)).1 (some "county")) ∧
    (∀ (a : Attrs) (c : Option Attrs) (mode : String) (tOnly : Bool),
      tornadoGET (JsNum.num 35) (JsNum.num (-97)) mode tOnly (some a) c
        = RouteOut.body
            (if mode = "score" then mapScoreToLevel (extract a).score
             else mapLabelToLevel (extract a).label)
            (some "tract")) := by
  refine ⟨?_, ?_, ?_, ?_⟩
  · intro a c dbg h
    simp [landslideNriGET, JsNum.isFinite, h]
  · intro a dbg c h
    simp [landslideNriGET, JsNum.isFinite, h]
  · intro ca dbg
    rfl
  · intro a c mode tOnly
    simp [tornadoGET, JsNum.isFinite]

/-- C2 witness: the fallback of the NRI landslide handler engages on a
"No Rating" tract feature, handing resolution to the county stage
(which here yields High). -/
theorem C2_witness :
    landslideNriGET (JsNum.num 35) (JsNum.num (-97)) false
      ⟨true, some [("LNDS_RISKR", "No Rating")]⟩
      ⟨true, some [("LNDS_RISKR", "Relatively High")]⟩
      = landslideNriCounty false ⟨true, some [("LNDS_RISKR", "Relatively High")]⟩ :=
  C2_amended.1 [("LNDS_RISKR", "No Rating")]
    ⟨true, some [("LNDS_RISKR", "Relatively High")]⟩ false (by decide)

/-! ## Claim C3 — outcome when every source is exhausted -/

/-- C3 counterexample: the LANDSLIDE_URL landslide handler returns HTTP
502 — not a success body with level Undetermined — when every candidate
service attempt fails. -/
theorem C3_counterexample :
    landslideUrlGET (JsNum.num 35) (JsNum.num (-97)) (some "u")
      [AttemptR.otherFail, AttemptR.otherFail] = UrlOut.err 502 ∧
    UrlOut.err 502 ≠ UrlOut.ok Five.Undetermined := by decide

/-- A candidate loop whose attempts all fail yields no successful
result. -/
theorem firstSuccess_none (rs : List AttemptR)
    (h : ∀ r ∈ rs, r = AttemptR.otherFail) :
    firstSuccess rs = none := by
  induction rs with
  | nil => rfl
  | cons hd tl ih =>
    have hhd : hd = AttemptR.otherFail := h hd (by simp)
    have htl : ∀ r ∈ tl, r = AttemptR.otherFail := fun r hr => h r (by simp [hr])
    subst hhd
    simpa [firstSuccess, List.findSome?] using ih htl

/-- C3 amended: on exhaustion the tornado handler does return a normal
success with level Undetermined, and so does the NRI landslide handler
in production mode — but the NRI landslide handler surfaces HTTP 502 in
debug mode, the LANDSLIDE_URL handler surfaces HTTP 502 whenever all
candidates fail, and the part_005 handler surfaces HTTP 404 when some
attempt reported "no feature" (502 otherwise). -/
theorem C3_amended :
    (∀ (mode : String) (tOnly : Bool),
      tornadoGET (JsNum.num 35) (JsNum.num (-97)) mode tOnly none none
        = RouteOut.body Five.Undetermined (if tOnly then some "tract" else none)) ∧
    landslideNriGET (JsNum.num 35) (JsNum.num (-97)) false ⟨true, none⟩ ⟨true, none⟩
      = RouteOut.body Five.Undetermined none ∧
    landslideNriGET (JsNum.num 35) (JsNum.num (-97)) true ⟨true, none⟩ ⟨true, none⟩
      = RouteOut.err 502 ∧
    (∀ rs : List AttemptR, (∀ r ∈ rs, r = AttemptR.otherFail) →
      landslideUrlGET (JsNum.num 35) (JsNum.num (-97)) (some "u") rs = UrlOut.err 502) ∧
    ls5GET (JsNum.num 35) (JsNum.num (-97)) (some "u") [AttemptR.noFeature] = UrlOut.err 404 ∧
    ls5GET (JsNum.num 35) (JsNum.num (-97)) (some "u") [AttemptR.otherFail] = UrlOut.err 502 := by
  refine ⟨?_, rfl, rfl, ?_, by decide, by decide⟩
  · intro mode tOnly
    cases tOnly <;> simp [tornadoGET, JsNum.isFinite]
  · intro rs h
    simp [landslideUrlGET, JsNum.isFinite, firstSuccess_none rs h]

/-- C3 witness: the exhaustion conjunct applied to a concrete
one-attempt failure list. -/
theorem C3_witness :
    landslideUrlGET (JsNum.num 35) (JsNum.num (-97)) (some "u")
      [AttemptR.otherFail] = UrlOut.err 502 :=
  C3_amended.2.2.2.1 [AttemptR.otherFail] (by decide)

/-! ## Claim C4 — "very high" is matched before "high" -/

/-- C4 counterexample: in the tornado `mapLabelToLevel` the sentinel
phrases are tested before the severity phrases, so the label
"No Rating (Very High)" — whose normalized form contains "veryhigh" —
classifies as Not Applicable, not Very High (though still never High). -/
theorem C4_counterexample :
    hasSub (normKey "No Rating (Very High)") "veryhigh" = true ∧
    mapLabelToLevel (JsVal.str "No Rating (Very High)") = Five.NotApplicable ∧
    Five.NotApplicable ≠ Five.VeryHigh := by decide

/-- C4 amended: a label whose normalized form contains "veryhigh" is never
classified as High by the tornado `mapLabelToLevel` (the "very …" check
precedes the bare "high" check), and it is classified as Very High
whenever the normalized form contains none of the sentinel phrases
(notapplicable / insufficientdata / norating), which are tested first;
the landslide `toLevelFromLabel` classifies every label containing
"very high" as Very High unconditionally. -/
theorem C4_amended :
    (∀ s : String, hasSub (normKey s) "veryhigh" = true →
      mapLabelToLevel (JsVal.str s) ≠ Five.High) ∧
    (∀ s : String, hasSub (normKey s) "veryhigh" = true →
      hasSub (normKey s) "notapplicable" = false →
      hasSub (normKey s) "insufficientdata" = false →
      hasSub (normKey s) "norating" = false →
      mapLabelToLevel (JsVal.str s) = Five.VeryHigh) ∧
    (∀ s : String, hasSub (jsLower s) "very high" = true →
      toLevelFromLabel s = Five.VeryHigh) := by
  refine ⟨?_, ?_, ?_⟩
  · intro s h
    simp only [mapLabelToLevel]
    split_ifs <;> simp_all
  · intro s h h1 h2 h3
    simp [mapLabelToLevel, h, h1, h2, h3]
  · intro s h
    simp [toLevelFromLabel, h]

/-- C4 witness: the amended theorem applied to the canonical label
"Very High". -/
theorem C4_witness :
    mapLabelToLevel (JsVal.str "Very High") = Five.VeryHigh :=
  C4_amended.2.1 "Very High" (by decide) (by decide) (by decide) (by decide)

/-! ## Claim C6 — score thresholds -/

/-- Outside the `[1,5]` class-code capture, `mapLabelLoose`'s numeric
branch coincides with the spec's ×100-then-20/40/60/80 procedure (its
0.2/0.4/0.6/0.8 thresholds on the value divided by 100 are the same
cuts). -/
theorem mapLL_matches_spec (v : ℚ) (h : ¬(1 ≤ v ∧ v ≤ 5)) :
    mapLabelLoose (JsVal.jnum (JsNum.num v)) = specScore2040 v := by
  have hb : (decide (1 ≤ v) && decide (v ≤ 5)) = false := by
    rcases not_and_or.mp h with h' | h' <;> simp [h']
  simp only [mapLabelLoose, JsNum.ge, JsNum.le, JsNum.gt, JsNum.div, hb,
    Bool.false_eq_true, if_false, specScore2040]
  by_cases h15 : (1.5 : ℚ) < v
  · have hgt : (decide ((1.5:ℚ) < v)) = true := by simp [h15]
    have hle : ¬ (v ≤ (1.5:ℚ)) := not_le.mpr h15
    rw [if_pos hgt, if_neg hle]
    have e1 : ((match JsNum.num (v / 100) with
        | JsNum.num q => decide (q ≤ (0.2:ℚ))
        | JsNum.negInf => true
        | _ => false) = true) = (v ≤ 20) := by
      simp only [decide_eq_true_eq]
      exact propext ⟨fun hh => by linarith, fun hh => by linarith⟩
    have e2 : ((match JsNum.num (v / 100) with
        | JsNum.num q => decide (q ≤ (0.4:ℚ))
        | JsNum.negInf => true
        | _ => false) = true) = (v ≤ 40) := by
      simp only [decide_eq_true_eq]
      exact propext ⟨fun hh => by linarith, fun hh => by linarith⟩
    have e3 : ((match JsNum.num (v / 100) with
        | JsNum.num q => decide (q ≤ (0.6:ℚ))
        | JsNum.negInf => true
        | _ => false) = true) = (v ≤ 60) := by
      simp only [decide_eq_true_eq]
      exact propext ⟨fun hh => by linarith, fun hh => by linarith⟩
    have e4 : ((match JsNum.num (v / 100) with
        | JsNum.num q => decide (q ≤ (0.8:ℚ))
        | JsNum.negInf => true
        | _ => false) = true) = (v ≤ 80) := by
      simp only [decide_eq_true_eq]
      exact propext ⟨fun hh => by linarith, fun hh => by linarith⟩
    simp only [e1, e2, e3, e4]
  · have hgt : ¬ ((decide ((1.5:ℚ) < v)) = true) := by simp [h15]
    have hle : (v ≤ (1.5:ℚ)) := not_lt.mp h15
    rw [if_neg hgt, if_pos hle]
    have e1 : ((match JsNum.num v with
        | JsNum.num q => decide (q ≤ (0.2:ℚ))
        | JsNum.negInf => true
        | _ => false) = true) = (v * 100 ≤ 20) := by
      simp only [decide_eq_true_eq]
      exact propext ⟨fun hh => by linarith, fun hh => by linarith⟩
    have e2 : ((match JsNum.num v with
        | JsNum.num q => decide (q ≤ (0.4:ℚ))
        | JsNum.negInf => true
        | _ => false) = true) = (v * 100 ≤ 40) := by
      simp only [decide_eq_true_eq]
      exact propext ⟨fun hh => by linarith, fun hh => by linarith⟩
    have e3 : ((match JsNum.num v with
        | JsNum.num q => decide (q ≤ (0.6:ℚ))
        | JsNum.negInf => true
        | _ => false) = true) = (v * 100 ≤ 60) := by
      simp only [decide_eq_true_eq]
      exact propext ⟨fun hh => by linarith, fun hh => by linarith⟩
    have e4 : ((match JsNum.num v with
        | JsNum.num q => decide (q ≤ (0.8:ℚ))
        | JsNum.negInf => true
        | _ => false) = true) = (v * 100 ≤ 80) := by
      simp only [decide_eq_true_eq]
      exact propext ⟨fun hh => by linarith, fun hh => by linarith⟩
    simp only [e1, e2, e3, e4]

/-- C6 counterexample: the tornado `mapScoreToLevel` — one of the cited
score normalizers — classifies the 0–100-scale score 50 as Very Low
(its thresholds are 71/85/93/99), while the claimed 20/40/60/80 procedure
yields Moderate. -/
theorem C6_counterexample :
    mapScoreToLevel (some (JsNum.num 50)) = Five.VeryLow ∧
    specScore2040 50 = Five.Moderate ∧
    Five.VeryLow ≠ Five.Moderate := by
  refine ⟨?_, ?_, by decide⟩
  · simp only [mapScoreToLevel]
    norm_num
  · simp only [specScore2040]
    norm_num

/-- C6 amended: `mapLabelLoose` follows the ×100-then-20/40/60/80
procedure for every score outside `[1,5]` (scores inside `[1,5]` are
read as class codes instead); the tornado `mapScoreToLevel` does not —
it uses thresholds 71/85/93/99 after the same ×100 normalization, so 50
maps to Very Low; and `extractTornado`'s score fallback applies the
20/40/60/80 cuts to the raw score without the ×100 step, so a 0–1-scale
score of 1 maps to Very Low where the claimed procedure yields Very
High (while 50 does map to Moderate). -/
theorem C6_amended :
    (∀ v : ℚ, ¬(1 ≤ v ∧ v ≤ 5) →
      mapLabelLoose (JsVal.jnum (JsNum.num v)) = specScore2040 v) ∧
    mapScoreToLevel (some (JsNum.num 50)) = Five.VeryLow ∧
    specScore2040 50 = Five.Moderate ∧
    (extractTornado [("TORN_RISKS", JsVal.jnum (JsNum.num 1))]).level = Five.VeryLow ∧
    specScore2040 1 = Five.VeryHigh ∧
    (extractTornado [("TORN_RISKS", JsVal.jnum (JsNum.num 50))]).level = Five.Moderate := by
  have h1 : matchTornRiskR (jsUpper "TORN_RISKS") = false := by decide
  have h2 : matchTornRiskS (jsUpper "TORN_RISKS") = true := by decide
  refine ⟨mapLL_matches_spec, ?_, ?_, ?_, ?_, ?_⟩
  · simp only [mapScoreToLevel]
    norm_num
  · simp only [specScore2040]
    norm_num
  · simp only [extractTornado, findAttr, List.find?, h1, h2, mapLabelToLevel]
    norm_num
  · simp only [specScore2040]
    norm_num
  · simp only [extractTornado, findAttr, List.find?, h1, h2, mapLabelToLevel]
    norm_num

/-- C6 witness: the universal part of the amended claim applied at the
concrete score 10. -/
theorem C6_witness :
    mapLabelLoose (JsVal.jnum (JsNum.num 10)) = specScore2040 10 :=
  C6_amended.1 10 (by norm_num)

/-! ## Claim C5 — raster severity-first rule -/

/-- At the `oracleC5` point the RPS variant yields the continuous value
400 (no class detected, no byte conversion, no rescaling needed). -/
theorem variantOutcome_RPS_400 :
    variantOutcome "RPS" true (JsNum.num 400) = some (TV.rpsV 400) := by
  have hc : hasSub (jsLower "RPS") "class" = false := by decide
  simp only [variantOutcome, isNoData, intClass, rpsNorm3, jsRoundQ, hc]
  norm_num

/-- C5 counterexample: at a point where both readings are obtainable,
the first-revision `tryVariants` returns the continuous RPS sample
(value 400, level Moderate) without consulting the class reading, whose
level High is strictly more severe — so for this handler the resulting
level is not the more severe of the two. -/
theorem C5_counterexample :
    tryVariantsFast oracleC5 = TV.rpsV 400 ∧
    levelFromRps (some (JsNum.num 400)) = Five.Moderate ∧
    levelFromClassCode (some (JsNum.num 4)) = Five.High ∧
    LEVEL_SCORE Five.Moderate < LEVEL_SCORE Five.High := by
  refine ⟨?_, ?_, ?_, by decide⟩
  · simp [tryVariantsFast, RULES_fast, List.findSome?, oracleC5, variantOutcome_RPS_400]
  · simp only [levelFromRps]
    norm_num
  · simp only [levelFromClassCode, jsRoundQ]
    norm_num

/-- In `readBothAndChoose`, whenever both variants produce a value the
returned level is the more severe of the two normalized levels (the
continuous reading wins ties), so its score is the max of the two. -/
theorem readBoth_severity (rOk cOk : Bool) (rN cN : JsNum) (rv cv : ℚ)
    (h1 : (getVariantValue "RPS" rOk rN).ok = true)
    (h2 : (getVariantValue "RPS" rOk rN).value = some rv)
    (h3 : (getVariantValue "RPS_Class" cOk cN).ok = true)
    (h4 : (getVariantValue "RPS_Class" cOk cN).value = some cv) :
    (readBothAndChoose rOk rN cOk cN).level
        = (if LEVEL_SCORE (levelFromRps (some (JsNum.num rv)))
              < LEVEL_SCORE (if (getVariantValue "RPS_Class" cOk cN).type = VType.cls
                  then levelFromClassCode (some (JsNum.num cv))
                  else levelFromRps (some (JsNum.num cv)))
           then (if (getVariantValue "RPS_Class" cOk cN).type = VType.cls
                  then levelFromClassCode (some (JsNum.num cv))
                  else levelFromRps (some (JsNum.num cv)))
           else levelFromRps (some (JsNum.num rv))) ∧
    LEVEL_SCORE (readBothAndChoose rOk rN cOk cN).level
        = max (LEVEL_SCORE (levelFromRps (some (JsNum.num rv))))
              (LEVEL_SCORE (if (getVariantValue "RPS_Class" cOk cN).type = VType.cls
                  then levelFromClassCode (some (JsNum.num cv))
                  else levelFromRps (some (JsNum.num cv)))) := by
  simp only [readBothAndChoose, h1, h2, h3, h4]
  constructor
  · split_ifs <;> simp_all
  · simp only [Nat.max_def]
    split_ifs <;> simp_all <;> omega

/-- When the RPS variant yields a usable value, the first-revision
`tryVariants` returns it, independent of the RPS_Class reading. -/
theorem tryVariants_first_usable (oracle : String → Bool × JsNum)
    (h : variantOutcome "RPS" (oracle "RPS").1 (oracle "RPS").2 ≠ none) :
    tryVariantsFast oracle
      = (variantOutcome "RPS" (oracle "RPS").1 (oracle "RPS").2).getD TV.nothing := by
  obtain ⟨tv, htv⟩ := Option.ne_none_iff_exists'.mp h
  simp [tryVariantsFast, RULES_fast, List.findSome?, htv]

/-- C5 amended: the multi-source `readBothAndChoose` does keep the more
severe of the two normalized levels whenever both a continuous score and
a discrete class are obtainable (ties favour the continuous reading);
the first-revision `tryVariants` instead returns the first usable
variant in its fixed rule order — continuous RPS before RPS_Class — so
there the class reading is consulted only when the continuous sample is
unusable. -/
theorem C5_amended :
    (∀ (rOk cOk : Bool) (rN cN : JsNum) (rv cv : ℚ),
      (getVariantValue "RPS" rOk rN).ok = true →
      (getVariantValue "RPS" rOk rN).value = some rv →
      (getVariantValue "RPS_Class" cOk cN).ok = true →
      (getVariantValue "RPS_Class" cOk cN).value = some cv →
      LEVEL_SCORE (readBothAndChoose rOk rN cOk cN).level
        = max (LEVEL_SCORE (levelFromRps (some (JsNum.num rv))))
              (LEVEL_SCORE (if (getVariantValue "RPS_Class" cOk cN).type = VType.cls
                  then levelFromClassCode (some (JsNum.num cv))
                  else levelFromRps (some (JsNum.num cv))))) ∧
    (∀ oracle : String → Bool × JsNum,
      variantOutcome "RPS" (oracle "RPS").1 (oracle "RPS").2 ≠ none →
      tryVariantsFast oracle
        = (variantOutcome "RPS" (oracle "RPS").1 (oracle "RPS").2).getD TV.nothing) := by
  constructor
  · intro rOk cOk rN cN rv cv h1 h2 h3 h4
    exact (readBoth_severity rOk cOk rN cN rv cv h1 h2 h3 h4).2
  · exact tryVariants_first_usable

/-- C5 witness: the first-usable conjunct applied at the concrete
`oracleC5` sampling point. -/
theorem C5_witness : tryVariantsFast oracleC5 = TV.rpsV 400 := by
  have h := C5_amended.2 oracleC5 (by simp [oracleC5, variantOutcome_RPS_400])
  simpa [oracleC5, variantOutcome_RPS_400] using h

/-! ## Claim C9 — coordinate validation -/

/-- C9 counterexample: the tornado handler only tests finiteness, so the
out-of-range coordinate (lat 1000, lon 200) passes validation and the
resolution proceeds to the providers, returning a success body instead of
the caller-visible error the claim requires. -/
theorem C9_counterexample :
    tornadoGET2 (JsNum.num 1000) (JsNum.num 200)
      (some [("TORN_RISKR", JsVal.str "Relatively High")]) none
      = RouteOut.body Five.High (some "tract") ∧
    (90 : ℚ) < 1000 ∧ (180 : ℚ) < 200 := by
  refine ⟨by decide, by norm_num, by norm_num⟩

/-- C9 amended: a non-finite coordinate does yield HTTP 400, and the
response is then independent of every provider result (the error is
decided before any network outcome is consulted); but a finite
out-of-range coordinate passes the `Number.isFinite` check and the
resolution proceeds, and invalid input is not the only caller-visible
error — the LANDSLIDE_URL handler surfaces HTTP 500 when its service URL
is unset (and, per claim C3, 502 on exhaustion). -/
theorem C9_amended :
    (∀ (lat lon : JsNum) (tp cp : Option Attrs), lat.isFinite = false →
      tornadoGET2 lat lon tp cp = RouteOut.err 400) ∧
    (∀ (lat lon : JsNum) (tp cp : Option Attrs), lon.isFinite = false →
      tornadoGET2 lat lon tp cp = RouteOut.err 400) ∧
    (∀ tp cp tp2 cp2 : Option Attrs,
      tornadoGET2 JsNum.nan (JsNum.num 0) tp cp
        = tornadoGET2 JsNum.nan (JsNum.num 0) tp2 cp2) ∧
    tornadoGET2 (JsNum.num 1000) (JsNum.num 200)
      (some [("TORN_RISKR", JsVal.str "Relatively High")]) none
      = RouteOut.body Five.High (some "tract") ∧
    landslideUrlGET (JsNum.num 35) (JsNum.num (-97)) none [] = UrlOut.err 500 := by
  refine ⟨?_, ?_, ?_, by decide, by decide⟩
  · intro lat lon tp cp h
    simp [tornadoGET2, h]
  · intro lat lon tp cp h
    simp [tornadoGET2, h]
  · intro tp cp tp2 cp2
    simp [tornadoGET2, JsNum.isFinite]

/-- C9 witness: the 400-before-network conjunct applied at a NaN
latitude. -/
theorem C9_witness :
    tornadoGET2 JsNum.nan (JsNum.num 0) none none = RouteOut.err 400 :=
  C9_amended.1 JsNum.nan (JsNum.num 0) none none rfl

/-! ## Claim C7 — byteToClass bucketing -/

/-- C7: `byteToClass` computes `1 + floor(v*5/256)` clamped to `[1,5]`;
on every input in `[0,255]` the clamp is the identity, so
`byteToClass 0 = 1`, `byteToClass 255 = 5`, and `byteToClass 128 = 3`
(which lies in `{2,3}` as the spec requires); being a function it is
deterministic. -/
theorem C7_byteToClass_buckets :
    byteToClass 0 = 1 ∧ byteToClass 255 = 5 ∧ byteToClass 128 = 3 ∧
    (byteToClass 128 = 2 ∨ byteToClass 128 = 3) ∧
    ∀ v : ℚ, 0 ≤ v → v ≤ 255 →
      byteToClass v = 1 + ⌊v * 5 / 256⌋ ∧ 1 ≤ byteToClass v ∧ byteToClass v ≤ 5 := by
  refine ⟨by norm_num [byteToClass], by norm_num [byteToClass],
          by norm_num [byteToClass], by norm_num [byteToClass], ?_⟩
  intro v h0 h255
  have hf0 : (0 : ℤ) ≤ ⌊v * 5 / 256⌋ := by
    apply Int.floor_nonneg.mpr
    positivity
  have hf4 : ⌊v * 5 / 256⌋ < 5 := by
    apply Int.floor_lt.mpr
    push_cast
    nlinarith
  unfold byteToClass
  constructor
  · rw [max_eq_left (by omega), min_eq_left (by omega)]
  · rw [max_eq_left (by omega), min_eq_left (by omega)]
    omega

/-- C7 witness: the universal part applied at the concrete byte 100. -/
theorem C7_byteToClass_buckets_witness :
    byteToClass 100 = 1 + ⌊(100 : ℚ) * 5 / 256⌋ ∧
    1 ≤ byteToClass 100 ∧ byteToClass 100 ≤ 5 :=
  C7_byteToClass_buckets.2.2.2.2 100 (by norm_num) (by norm_num)

/-! ## Claim C8 — the severity reducer never launders sentinels -/

/-- C8: `higher` returns a sentinel exactly when both arguments are
sentinels; when exactly one argument is a sentinel the other wins, and a
sentinel always scores strictly below every ordered level. -/
theorem C8_higher_sentinels :
    (∀ a b : Five, isSentinel (higher a b) = (isSentinel a && isSentinel b)) ∧
    (∀ a b : Five, isSentinel a = true → isSentinel b = false →
      higher a b = b ∧ LEVEL_SCORE a < LEVEL_SCORE b) ∧
    (∀ a b : Five, isSentinel a = false → isSentinel b = true →
      higher a b = a) ∧
    (∀ a : Five, isSentinel a = true → LEVEL_SCORE a = 0) ∧
    (∀ a : Five, isSentinel a = false → 1 ≤ LEVEL_SCORE a) := by
  refine ⟨by decide, by decide, by decide, by decide, by decide⟩

/-- C8 witness: the reducer applied to (Undetermined, High) picks High. -/
theorem C8_higher_sentinels_witness :
    higher Five.Undetermined Five.High = Five.High ∧
    LEVEL_SCORE Five.Undetermined < LEVEL_SCORE Five.High :=
  C8_higher_sentinels.2.1 Five.Undetermined Five.High (by decide) (by decide)

/-! ## Claim C10 — the tile-palette classifier is total onto the five
ordered levels -/

/-- A neighborhood in which every pixel is transparent contributes
nothing to the accumulator. -/
theorem foldl_transparent (l : List RGBA) (h : ∀ p ∈ l, p.a = 0) :
    ∀ acc, l.foldl sumStep acc = acc := by
  induction l with
  | nil => intro acc; rfl
  | cons hd tl ih =>
    intro acc
    have h0 : hd.a = 0 := h hd (by simp)
    have htl : ∀ p ∈ tl, p.a = 0 := fun p hp => h p (by simp [hp])
    have hstep : sumStep acc hd = acc := by simp [sumStep, h0]
    simp only [List.foldl_cons, hstep]
    exact ih htl acc

/-- C10: the part_003 classifier is total onto the five ordered levels —
its image under the shared taxonomy never contains a sentinel; a fully
transparent neighborhood (outside mapped polygons) classifies as very
low; a legend label matching none of the five canonical phrases also
classifies as very low; and each canonical phrase is attained, so the
classifier is onto. -/
theorem C10_tile_classifier_total :
    (∀ (palette : List PaletteEntry) (pixels : List RGBA),
      isSentinel (L5.toFive (classifyTile palette pixels)) = false) ∧
    (∀ (palette : List PaletteEntry) (pixels : List RGBA),
      (∀ p ∈ pixels, p.a = 0) → classifyTile palette pixels = L5.very_low) ∧
    (∀ label : String,
      hasSub (jsLower label) "very high" = false →
      hasSub (jsLower label) "high" = false →
      hasSub (jsLower label) "moderate" = false →
      hasSub (jsLower label) "very low" = false →
      hasSub (jsLower label) "low" = false →
      mapLabelToLevelTiles label = L5.very_low) ∧
    (mapLabelToLevelTiles "Very High" = L5.very_high ∧
     mapLabelToLevelTiles "High" = L5.high ∧
     mapLabelToLevelTiles "Moderate" = L5.moderate ∧
     mapLabelToLevelTiles "Low" = L5.low ∧
     mapLabelToLevelTiles "Very Low" = L5.very_low) := by
  refine ⟨?_, ?_, ?_, by decide⟩
  · intro palette pixels
    generalize classifyTile palette pixels = x
    cases x <;> rfl
  · intro palette pixels h
    have havg : avgOf pixels = (0, 0, 0, 0) := by
      simp [avgOf, foldl_transparent pixels h]
    simp [classifyTile, havg]
  · intro label h1 h2 h3 h4 h5
    simp [mapLabelToLevelTiles, h1, h2, h3, h4, h5]

/-- C10 witness: the transparent-neighborhood conjunct applied to a
concrete all-transparent 5x5 grid with an empty palette. -/
theorem C10_tile_classifier_total_witness :
    classifyTile [] (List.replicate 25 ⟨0, 0, 0, 0⟩) = L5.very_low :=
  C10_tile_classifier_total.2.1 [] (List.replicate 25 ⟨0, 0, 0, 0⟩) (by decide)

end HazardCheck
